import Mathlib

/-!
Verification of the flat-file import wizard pages (`SummaryPage`,
`FileConfigPage`) of this repository, as a shallow embedding in Lean.

Host-supplied collaborators (connection host, query provider, flat-file
provider, widget toolkit) are modelled as explicit behaviour records;
widget and model mutations are modelled as explicit state passing; the
requests a run sends to the providers are collected in an event trace.
JavaScript strings are Lean `String`s (lists of characters), JavaScript
truthiness on a string is the non-empty test, and a thrown JavaScript
exception is an `Except.error` carrying the message text.
-/

set_option linter.unusedVariables false

/-- One cell of a query result (`sqlops.DbCellValue`). -/
structure Cell where
  isNull : Bool
  displayValue : String
  deriving Repr, DecidableEq

/-- Result of `QueryProvider.runQueryAndReturn` (`sqlops.SimpleExecuteResult`). -/
structure SimpleExecuteResult where
  rows : List (List Cell)
  deriving Repr, DecidableEq

/-- The connection option bag read by the pages.  `port` and
`databaseDisplayName` are `Option`s because the source guards them with
JavaScript truthiness tests; an absent option is `none`. -/
structure ServerOptions where
  authenticationType : String
  server : String
  port : Option String
  user : String
  databaseDisplayName : Option String
  deriving Repr, DecidableEq

/-- `sqlops.connection.Connection` as used by the pages. -/
structure Connection where
  options : ServerOptions
  connectionId : String
  providerName : String
  deriving Repr, DecidableEq

/-- One entry of `model.proseColumns` (a PROSE column descriptor). -/
structure ColumnInfo where
  columnName : String
  dataType : String
  nullable : Bool
  primaryKey : Bool
  deriving Repr, DecidableEq

/-- `ImportDataModel` as read by the summary page (all fields populated by
the time that page runs). -/
structure ImportDataModel where
  server : Connection
  database : String
  schema : String
  table : String
  filePath : String
  proseColumns : List ColumnInfo
  deriving Repr, DecidableEq

/-- `result` field of the flat-file service insert response. -/
structure InsertResult where
  success : Bool
  errorMessage : String
  deriving Repr, DecidableEq

/-- `InsertDataResponse` of the flat-file service. -/
structure InsertDataResponse where
  result : InsertResult
  deriving Repr, DecidableEq

/-- A request the summary page sends to the flat-file provider. -/
inductive ProviderEvent where
  | changeColumn (index : Nat) (newName : String) (newDataType : String)
      (newNullable : Bool) (newInPrimaryKey : Bool)
  | insertData (connectionString : String) (batchSize : Nat)
  deriving Repr, DecidableEq

/-- The port segment of the connection string: the source appends
`,${options.port}` exactly when `options.port` is truthy (present and
non-empty). -/
def portSegment (options : ServerOptions) : String :=
  match options.port with
  | some p => if p = "" then "" else "," ++ p
  | none => ""

/-- `SummaryPage.getConnectionString`.  `credentialsPassword` is the password
the connection host returns from `sqlops.connection.getCredentials`; it is
only consulted on the non-integrated branch, exactly as in the source. -/
def getConnectionString (model : ImportDataModel) (credentialsPassword : String) : String :=
  let options := model.server.options
  if options.authenticationType = "Integrated" then
    "Data Source=" ++ options.server ++ portSegment options ++
      ";Initial Catalog=" ++ model.database ++ ";Integrated Security=True"
  else
    "Data Source=" ++ options.server ++ portSegment options ++
      ";Initial Catalog=" ++ model.database ++
      ";Integrated Security=False;User Id=" ++ options.user ++
      ";Password=" ++ credentialsPassword

/-- `SummaryPage.getCountRowsInserted`.  The source attaches a
then-continuation to `runQueryAndReturn` but never awaits the promise, so
under single-threaded event-loop semantics the continuation cannot have run
when the synchronous `results.rows[0][0]` read executes: `results` is still
unassigned, the dereference throws, and the surrounding catch returns `-1`.
The `some` branch transcribes the cell handling of the source
(`!cell || cell.isNull`, `Number(cell.displayValue)` with a NaN test) and is
unreachable. -/
def getCountRowsInserted (countQuery : Except String SimpleExecuteResult) : Int :=
  let results : Option SimpleExecuteResult := none
  match results with
  | none => -1
  | some r =>
    match r.rows.head?.bind List.head? with
    | none => -1
    | some cell =>
      if cell.isNull then -1
      else
        match cell.displayValue.toInt? with
        | none => -1
        | some n => n

/-- Observable outcome of one `SummaryPage.handleImport` run: the provider
requests it dispatched in order, the status text it rendered, the model as
it stands afterwards, and whether the call returned normally (the source
catches the insert rejection, so no exception escapes and no navigation away
from the summary page happens; a commit can be re-invoked). -/
structure ImportOutcome where
  events : List ProviderEvent
  statusText : String
  modelAfter : ImportDataModel
  returned : Bool
  deriving Repr, DecidableEq

/-- `SummaryPage.handleImport`.  `insertOutcome` is the behaviour of the
awaited `sendInsertDataRequest` (a rejection carries the stringified error),
`countQuery` the behaviour of the row-count query. -/
def handleImport (model : ImportDataModel) (credentialsPassword : String)
    (insertOutcome : Except String InsertDataResponse)
    (countQuery : Except String SimpleExecuteResult) : ImportOutcome :=
  let changeEvents := model.proseColumns.enum.map fun p =>
    ProviderEvent.changeColumn p.1 p.2.columnName p.2.dataType p.2.nullable p.2.primaryKey
  let events := changeEvents ++
    [ProviderEvent.insertData (getConnectionString model credentialsPassword) 500]
  match insertOutcome with
  | Except.error e =>
    { events := events, statusText := "✗ " ++ e, modelAfter := model, returned := true }
  | Except.ok response =>
    if response.result.success then
      let rows := getCountRowsInserted countQuery
      if rows < 0 then
        { events := events
          statusText := "✔ Awesome! You have successfully inserted the data into a table."
          modelAfter := model, returned := true }
      else
        { events := events
          statusText := "✔ Awesome! You have successfully inserted " ++ toString rows ++ " rows."
          modelAfter := model, returned := true }
    else
      { events := events, statusText := "✗ " ++ response.result.errorMessage
        modelAfter := model, returned := true }

/-- `FileConfigPage.createTableNameBox` validation closure: reject an empty
name (`!tableName || tableName.length === 0`) and a name already present in
the cached `tableNames` (`indexOf(tableName) !== -1`). -/
def tableNameValidation (tableNames : List String) (name : String) : Bool :=
  if name == "" || name.length == 0 then false
  else if tableNames.contains name then false
  else true

/-- A dropdown entry (`sqlops.CategoryValue`). -/
structure CategoryValue where
  name : String
  displayName : String
  deriving Repr, DecidableEq

/-- Widget and model state touched by `FileConfigPage`.  The `model*` fields
are the shared `ImportDataModel` fields this page writes; they are `Option`s
because the page starts with them unset. -/
structure ConfigPageState where
  server : Option Connection
  modelServer : Option Connection
  modelDatabase : Option String
  modelSchema : Option String
  modelTable : Option String
  modelFilePath : Option String
  serverDropdownValues : List CategoryValue
  databaseDropdownValues : List CategoryValue
  databaseDropdownValue : Option CategoryValue
  schemaDropdownValues : List CategoryValue
  fileTextBoxValue : Option String
  tableNameTextBoxValue : Option String
  tableNames : List String
  deriving Repr, DecidableEq

/-- A fresh configuration page state: nothing selected, nothing cached. -/
def freshConfigState : ConfigPageState :=
  { server := none, modelServer := none, modelDatabase := none, modelSchema := none
    modelTable := none, modelFilePath := none, serverDropdownValues := []
    databaseDropdownValues := [], databaseDropdownValue := none
    schemaDropdownValues := [], fileTextBoxValue := none
    tableNameTextBoxValue := none, tableNames := [] }

/-- A call the configuration page issues to the connection host or the query
provider. -/
inductive HostCall where
  | getActiveConnections
  | listDatabases (connectionId : String)
  | getUriForConnection (connectionId : String)
  | runQuery (uri : String) (query : String)
  deriving Repr, DecidableEq

/-- Behaviour of the host during one page interaction: the active connection
list, the database list per connection id, the URI per connection id, and the
query provider response per (uri, query text); an `Except.error` is a
rejected query promise. -/
structure HostBehavior where
  activeConnections : List Connection
  listDatabases : String → List String
  uriForConnection : String → String
  runQueryAndReturn : String → String → Except String SimpleExecuteResult

/-- The display entry `populateServerDropdown` builds per connection:
`${srv}, ${db} (${usr})` with `<default>` and `default` substituted for a
falsy database display name and user. -/
def serverDisplayEntry (c : Connection) : CategoryValue :=
  let db := match c.options.databaseDisplayName with
    | some d => if d = "" then "<default>" else d
    | none => "<default>"
  let usr := if c.options.user = "" then "default" else c.options.user
  { name := c.connectionId
    displayName := c.options.server ++ ", " ++ db ++ " (" ++ usr ++ ")" }

/-- `FileConfigPage.populateServerDropdown`: fetch the active connections;
with an empty (or absent) list return at once; otherwise take the first
connection as `this.server` and `model.server` and fill the dropdown. -/
def populateServerDropdown (host : HostBehavior) (st : ConfigPageState) :
    ConfigPageState × List HostCall :=
  match host.activeConnections with
  | [] => (st, [HostCall.getActiveConnections])
  | c :: rest =>
    ({ st with server := some c, modelServer := some c
               serverDropdownValues := (c :: rest).map serverDisplayEntry },
     [HostCall.getActiveConnections])

/-- `FileConfigPage.populateDatabaseDropdown`: clear the database and schema
dropdowns, bail out with `false` when `this.server` is unset, otherwise list
the databases of the server, making the first one `model.database`, and fill
the dropdown.  Returns the source function result flag alongside. -/
def populateDatabaseDropdown (host : HostBehavior) (st : ConfigPageState) :
    ConfigPageState × Bool × List HostCall :=
  let st1 := { st with databaseDropdownValues := [], schemaDropdownValues := [] }
  match st1.server with
  | none => (st1, false, [])
  | some srv =>
    let dbs := host.listDatabases srv.connectionId
    let st2 := match dbs with
      | [] => st1
      | d :: _ => { st1 with modelDatabase := some d }
    ({ st2 with databaseDropdownValues :=
          dbs.map fun db => { name := db, displayName := db } },
     true, [HostCall.listDatabases srv.connectionId])

/-- `row[0].displayValue` over a result row: an empty row makes the source
throw a TypeError on the undefined `row[0]`. -/
def rowFirstDisplay (row : List Cell) : Except String String :=
  match row.head? with
  | none => Except.error "TypeError: row[0] is undefined"
  | some c => Except.ok c.displayValue

/-- `FileConfigPage.populateSchemaDropdown`: resolve the connection URI, run
`SELECT name FROM sys.schemas` (note: not qualified by the selected
database), make the first returned schema `model.schema` and fill the
dropdown.  Nothing here is caught: with `this.server` unset the
`this.server.connectionId` read throws, and a rejected query propagates; the
state reached so far is returned alongside the error. -/
def populateSchemaDropdown (host : HostBehavior) (st : ConfigPageState) :
    ConfigPageState × Option String × List HostCall :=
  match st.server with
  | none => (st, some "TypeError: this.server is undefined", [])
  | some srv =>
    let uri := host.uriForConnection srv.connectionId
    let q := "SELECT name FROM sys.schemas"
    let calls := [HostCall.getUriForConnection srv.connectionId, HostCall.runQuery uri q]
    match host.runQueryAndReturn uri q with
    | Except.error e => (st, some e, calls)
    | Except.ok results =>
      match results.rows.mapM rowFirstDisplay with
      | Except.error e => (st, some e, calls)
      | Except.ok schemaNames =>
        let st2 := match schemaNames with
          | [] => st
          | s :: _ => { st with modelSchema := some s }
        ({ st2 with schemaDropdownValues :=
              schemaNames.map fun v => { name := v, displayName := v } },
         none, calls)

/-- The table-listing query `populateTableNames` builds for a database. -/
def tableNamesQuery (databaseName : String) : String :=
  "USE " ++ databaseName ++
    "; SELECT TABLE_NAME FROM INFORMATION_SCHEMA.TABLES WHERE TABLE_TYPE = 'BASE TABLE'"

/-- `FileConfigPage.populateTableNames`: read the selected database off the
dropdown (throws when no value is selected), reset the cache and return
`false` on an empty name, otherwise run the table-listing query.  Only the
query itself sits in a try/catch: a rejected query is logged and the
function returns `false` leaving `this.tableNames` as it was.  The
`results.rows.map` after the catch throws on an empty row. -/
def populateTableNames (host : HostBehavior) (st : ConfigPageState) :
    ConfigPageState × Option String × Bool × List HostCall :=
  match st.databaseDropdownValue with
  | none => (st, some "TypeError: this.databaseDropdown.value is undefined", false, [])
  | some dv =>
    let databaseName := dv.name
    if databaseName = "" then ({ st with tableNames := [] }, none, false, [])
    else
      match st.server with
      | none => (st, some "TypeError: this.server is undefined", false, [])
      | some srv =>
        let uri := host.uriForConnection srv.connectionId
        let q := tableNamesQuery databaseName
        let calls := [HostCall.getUriForConnection srv.connectionId, HostCall.runQuery uri q]
        match host.runQueryAndReturn uri q with
        | Except.error _ => (st, none, false, calls)
        | Except.ok results =>
          match results.rows.mapM rowFirstDisplay with
          | Except.error e => (st, some e, false, calls)
          | Except.ok names => ({ st with tableNames := names }, none, true, calls)

/-- Outcome of the database dropdown change handler: the final state, the
rejections (if any) of the two fire-and-forget population promises, and the
host calls issued. -/
structure DbChangeOutcome where
  state : ConfigPageState
  tableNamesError : Option String
  schemaError : Option String
  calls : List HostCall
  deriving Repr

/-- The `databaseDropdown.onValueChanged` handler: record the newly selected
value, set `model.database` from it, then run `populateTableNames` and
`populateSchemaDropdown`.  The source launches both without awaiting; they
write disjoint state (the table-name cache versus the schema dropdown and
`model.schema`), so their sequential composition gives the interleaved
result, and a rejection of one does not stop the other. -/
def onDatabaseValueChanged (host : HostBehavior) (st : ConfigPageState)
    (selected : CategoryValue) : DbChangeOutcome :=
  let st0 := { st with databaseDropdownValue := some selected
                       modelDatabase := some selected.name }
  let (st1, terr, _flag, calls1) := populateTableNames host st0
  let (st2, serr, calls2) := populateSchemaDropdown host st1
  { state := st2, tableNamesError := terr, schemaError := serr
    calls := calls1 ++ calls2 }

/-- One step of the `onPageEnter` promise chain: a state transformer that can
reject, reporting the state reached, the rejection if any, and the host
calls made. -/
def ChainStep : Type :=
  HostBehavior → ConfigPageState → ConfigPageState × Option String × List HostCall

/-- `populateServerDropdown` as a chain step (it never rejects). -/
def serverStep : ChainStep := fun h st =>
  let (st1, calls) := populateServerDropdown h st
  (st1, none, calls)

/-- `this.populateDatabaseDropdown` as passed to `.then`: the method
reference is unbound, so under strict mode the callback runs with an
undefined receiver and throws a TypeError at its very first statement
(`this.databaseDropdown.updateProperties`), before any state change or host
call. -/
def unboundDatabaseStep : ChainStep := fun _ st =>
  (st, some "TypeError: this is undefined", [])

/-- `this.populateSchemaDropdown` as passed to `.then`: also unbound (its
first `this.server` read would throw), but the rejection of the previous
step means promise chaining never invokes it at all. -/
def unboundSchemaStep : ChainStep := fun _ st =>
  (st, some "TypeError: this is undefined", [])

/-- Run a promise chain `p.then(f).then(g)...`: each step sees the state its
predecessor left; a rejection skips every later step. -/
def runSteps (h : HostBehavior) : List ChainStep → ConfigPageState →
    ConfigPageState × Option String × List HostCall
  | [], st => (st, none, [])
  | f :: fs, st =>
    match f h st with
    | (st1, some e, calls) => (st1, some e, calls)
    | (st1, none, calls) =>
      let (st2, r, calls2) := runSteps h fs st1
      (st2, r, calls ++ calls2)

/-- What `FileConfigPage.onPageEnter` leaves behind: it starts the population
chain without awaiting it and resolves with `true` at once, so the state at
the moment it returns is untouched; the chain then runs on the event loop. -/
structure PageEnterResult where
  returnValue : Bool
  stateAtReturn : ConfigPageState
  finalState : ConfigPageState
  chainError : Option String
  deferredCalls : List HostCall
  deriving Repr

/-- `FileConfigPage.onPageEnter`:
`this.populateServerDropdown().then(this.populateDatabaseDropdown).then(this.populateSchemaDropdown)`
followed immediately by `return true`.  The first call is a bound method
call and runs in full; the two `.then` arguments are unbound method
references, so the database step rejects at once with a TypeError and the
schema step is skipped by the rejected chain. -/
def onPageEnterConfig (h : HostBehavior) (st : ConfigPageState) : PageEnterResult :=
  let (stF, err, calls) := runSteps h [serverStep, unboundDatabaseStep, unboundSchemaStep] st
  { returnValue := true, stateAtReturn := st, finalState := stF
    chainError := err, deferredCalls := calls }

/-- A `vscode.Uri` as read by the file browser handler. -/
structure FileUri where
  fsPath : String
  path : String
  deriving Repr, DecidableEq

/-- JavaScript `String.prototype.lastIndexOf` for a single character:
the greatest index holding the character, `-1` when absent. -/
def jsLastIndexOfAux (c : Char) : List Char → Nat → Int → Int
  | [], _, acc => acc
  | x :: xs, i, acc => jsLastIndexOfAux c xs (i + 1) (if x = c then (i : Int) else acc)

/-- See `jsLastIndexOfAux`. -/
def jsLastIndexOf (s : List Char) (c : Char) : Int :=
  jsLastIndexOfAux c s 0 (-1)

/-- Clamp a JavaScript substring bound into `[0, len]`. -/
def intClamp (n : Int) (len : Nat) : Nat :=
  if n < 0 then 0 else min n.toNat len

/-- JavaScript `String.prototype.substring`: both bounds clamped into
`[0, length]` and swapped when out of order. -/
def jsSubstring (s : List Char) (a b : Int) : List Char :=
  let x := intClamp a s.length
  let y := intClamp b s.length
  (s.take (max x y)).drop (min x y)

/-- The table name `createFileBrowser` derives from a chosen file URI path:
`path.substring(nameStart + 1, nameEnd)` where `nameStart` is the last
index of a slash, `nameEnd` the last index of a dot, replaced by the path
length only when it is exactly `0`. -/
def deriveTableName (path : List Char) : List Char :=
  let nameStart := jsLastIndexOf path '/'
  let nameEnd0 := jsLastIndexOf path '.'
  let nameEnd : Int := if nameEnd0 = 0 then (path.length : Int) else nameEnd0
  jsSubstring path (nameStart + 1) nameEnd

/-- The `fileButton.onDidClick` handler: with no chosen file return at once;
otherwise store the filesystem path in the text box and `model.filePath`,
and the name derived from the URI path in the table-name box and
`model.table`. -/
def fileButtonOnClick (st : ConfigPageState) (fileUris : List FileUri) : ConfigPageState :=
  match fileUris with
  | [] => st
  | uri :: _ =>
    let derived : String := String.mk (deriveTableName uri.path.data)
    { st with fileTextBoxValue := some uri.fsPath
              tableNameTextBoxValue := some derived
              modelTable := some derived
              modelFilePath := some uri.fsPath }

/-- Connection options used by concrete witnesses (SQL login). -/
def sampleOptions : ServerOptions :=
  { authenticationType := "SqlLogin", server := "srv1", port := none
    user := "sa", databaseDisplayName := none }

/-- Connection used by concrete witnesses. -/
def sampleConn : Connection :=
  { options := sampleOptions, connectionId := "c1", providerName := "MSSQL" }

/-- Import model used by concrete witnesses: one column descriptor. -/
def sampleModel : ImportDataModel :=
  { server := sampleConn, database := "db1", schema := "dbo", table := "t1"
    filePath := "/tmp/a.csv"
    proseColumns := [{ columnName := "a", dataType := "int"
                       nullable := false, primaryKey := false }] }

/-- Host behaviour for the C8 witness: both metadata queries succeed. -/
def c8WitnessHost : HostBehavior :=
  { activeConnections := [sampleConn]
    listDatabases := fun _ => ["db1", "db2"]
    uriForConnection := fun _ => "uri1"
    runQueryAndReturn := fun _ q =>
      if q = "SELECT name FROM sys.schemas" then
        Except.ok { rows := [[{ isNull := false, displayValue := "dbo" }]] }
      else Except.ok { rows := [[{ isNull := false, displayValue := "orders" }]] } }

/-- Page state for the C8 theorems: server selected, a stale table cache. -/
def c8State : ConfigPageState :=
  { freshConfigState with server := some sampleConn, modelServer := some sampleConn
                          tableNames := ["stale"] }

/-- Host with one connection and a non-empty database list, for the C10
counterexample. -/
def c10Host : HostBehavior :=
  { activeConnections := [sampleConn]
    listDatabases := fun _ => ["db1"]
    uriForConnection := fun _ => "uri1"
    runQueryAndReturn := fun _ _ =>
      Except.ok { rows := [[{ isNull := false, displayValue := "dbo" }]] } }

/-- Host behaviour for the C8 counterexample: the table-listing query for
`db2` rejects, the schema query succeeds. -/
def c8FailHost : HostBehavior :=
  { activeConnections := [sampleConn]
    listDatabases := fun _ => ["db1", "db2"]
    uriForConnection := fun _ => "uri1"
    runQueryAndReturn := fun _ q =>
      if q = "SELECT name FROM sys.schemas" then
        Except.ok { rows := [[{ isNull := false, displayValue := "dbo" }]] }
      else Except.error "boom" }

/-- The credential marker whose absence the integrated-auth connection
string is checked for. -/
def useridPat : List Char := "User Id=".data

/-- Integrated-auth model with a port, for the C1 witness. -/
def c1IntModel : ImportDataModel :=
  { server := { options := { authenticationType := "Integrated", server := "myhost"
                             port := some "1433", user := "machineacct"
                             databaseDisplayName := none }
                connectionId := "c2", providerName := "MSSQL" }
    database := "mydb", schema := "dbo", table := "t", filePath := "/f.csv"
    proseColumns := [] }

/-- SQL-login model without a port, for the C1 witness. -/
def c1SqlModel : ImportDataModel :=
  { server := { options := { authenticationType := "SqlLogin", server := "srv1"
                             port := none, user := "sa", databaseDisplayName := none }
                connectionId := "c1", providerName := "MSSQL" }
    database := "db1", schema := "dbo", table := "t", filePath := "/f.csv"
    proseColumns := [] }

/-- Integrated-auth model whose host value itself contains the credential
marker, for the C1 counterexample. -/
def c1EvilModel : ImportDataModel :=
  { server := { options := { authenticationType := "Integrated", server := "User Id=x"
                             port := none, user := "", databaseDisplayName := none }
                connectionId := "c3", providerName := "MSSQL" }
    database := "db", schema := "dbo", table := "t", filePath := "/f.csv"
    proseColumns := [] }

/-- C3: the configuration page accepts a candidate table name exactly when it
is non-empty and not among the cached table names of the selected
database. -/
theorem c3_table_name_validation (S : List String) (n : String) :
    tableNameValidation S n = true ↔ n ≠ "" ∧ n ∉ S := by
  unfold tableNameValidation
  by_cases h : n = ""
  · simp [h]
  · have hbeq : (n == "") = false := by simpa using h
    have hlen : (n.length == 0) = false := by
      have hd : n.data ≠ [] := by
        intro hnil
        exact h (String.ext_iff.mpr (by rw [hnil]))
      have hne : n.length ≠ 0 := by
        intro h0
        exact hd (List.length_eq_zero.mp h0)
      simpa using hne
    by_cases hc : n ∈ S
    · simp [hbeq, hlen, h, hc, List.elem_iff.mpr hc]
    · have hcf : S.contains n = false := by
        cases hcc : S.contains n
        · rfl
        · exact absurd (List.elem_iff.mp hcc) hc
      simp [hbeq, hlen, h, hc, hcf]

/-- The event list every `handleImport` branch dispatches. -/
theorem handleImport_events (model : ImportDataModel) (pwd : String)
    (io : Except String InsertDataResponse) (cq : Except String SimpleExecuteResult) :
    (handleImport model pwd io cq).events =
      (model.proseColumns.enum.map fun p =>
        ProviderEvent.changeColumn p.1 p.2.columnName p.2.dataType p.2.nullable p.2.primaryKey)
      ++ [ProviderEvent.insertData (getConnectionString model pwd) 500] := by
  have hcount : getCountRowsInserted cq = -1 := rfl
  rcases io with e | r
  · rfl
  · cases hs : r.result.success
    · simp [handleImport, hs]
    · simp [handleImport, hs, hcount]

/-- C2: one `handleImport` run dispatches exactly one column-change request
per `proseColumns` descriptor (carrying its name, data type, nullability and
primary-key flag, at its index), and the single insert request is the last
event, after all of them. -/
theorem c2_change_requests_before_insert (model : ImportDataModel) (pwd : String)
    (io : Except String InsertDataResponse) (cq : Except String SimpleExecuteResult) :
    (handleImport model pwd io cq).events.dropLast =
      (model.proseColumns.enum.map fun p =>
        ProviderEvent.changeColumn p.1 p.2.columnName p.2.dataType p.2.nullable p.2.primaryKey) ∧
    (handleImport model pwd io cq).events.dropLast.length = model.proseColumns.length ∧
    (handleImport model pwd io cq).events.getLast? =
      some (ProviderEvent.insertData (getConnectionString model pwd) 500) := by
  rw [handleImport_events model pwd io cq]
  refine ⟨List.dropLast_concat, ?_, List.getLast?_concat _⟩
  rw [List.dropLast_concat]
  simp

/-- C4: when the insert request rejects, or resolves with an unsuccessful
result, `handleImport` still returns normally (no exception escapes, the
summary page stays active for a retry), the model is untouched, and the
status text is the failure marker followed by the thrown error text
(respectively the result error message), which it therefore contains. -/
theorem c4_commit_failure (model : ImportDataModel) (pwd : String)
    (io : Except String InsertDataResponse) (cq : Except String SimpleExecuteResult) :
    (handleImport model pwd io cq).returned = true ∧
    (handleImport model pwd io cq).modelAfter = model ∧
    (∀ e, io = Except.error e →
      (handleImport model pwd io cq).statusText = "✗ " ++ e ∧
      e.data <:+: (handleImport model pwd io cq).statusText.data) ∧
    (∀ r, io = Except.ok r → r.result.success = false →
      (handleImport model pwd io cq).statusText = "✗ " ++ r.result.errorMessage ∧
      r.result.errorMessage.data <:+: (handleImport model pwd io cq).statusText.data) := by
  have hcount : getCountRowsInserted cq = -1 := rfl
  have hsuffix : ∀ a b : String, b.data <:+: (a ++ b).data := by
    intro a b
    rw [String.data_append]
    exact (List.suffix_append a.data b.data).isInfix
  refine ⟨?_, ?_, ?_, ?_⟩
  · rcases io with e | r
    · rfl
    · cases hs : r.result.success <;> simp [handleImport, hs, hcount]
  · rcases io with e | r
    · rfl
    · cases hs : r.result.success <;> simp [handleImport, hs, hcount]
  · intro e he
    subst he
    exact ⟨rfl, hsuffix "✗ " e⟩
  · intro r hr hs
    subst hr
    have hst : (handleImport model pwd (Except.ok r) cq).statusText =
        "✗ " ++ r.result.errorMessage := by
      simp [handleImport, hs]
    exact ⟨hst, hst ▸ hsuffix "✗ " r.result.errorMessage⟩

/-- C4 witness: a rejected insert with message `timeout` yields the failure
status containing `timeout`, the model unchanged and a normal return. -/
theorem c4_commit_failure_witness :
    (handleImport sampleModel "pw" (Except.error "timeout") (Except.error "x")).returned = true ∧
    (handleImport sampleModel "pw" (Except.error "timeout") (Except.error "x")).modelAfter
      = sampleModel ∧
    (handleImport sampleModel "pw" (Except.error "timeout") (Except.error "x")).statusText
      = "✗ timeout" ∧
    "timeout".data <:+:
      (handleImport sampleModel "pw" (Except.error "timeout") (Except.error "x")).statusText.data := by
  have h := c4_commit_failure sampleModel "pw" (Except.error "timeout") (Except.error "x")
  exact ⟨h.1, h.2.1, (h.2.2.1 "timeout" rfl).1, (h.2.2.1 "timeout" rfl).2⟩

/-- C5 (code bug): with one column descriptor, a successful insert and a
row-count query that resolves to a single cell displaying `42`, the rendered
status is the generic no-count success message and does not contain `42`:
the source reads the `results` variable before the then-continuation that
assigns it can run, so the count is lost. -/
theorem c5_rowcount_race_at_failing_input :
    (handleImport sampleModel "pw" (Except.ok { result := { success := true, errorMessage := "" } })
        (Except.ok { rows := [[{ isNull := false, displayValue := "42" }]] })).statusText =
      "✔ Awesome! You have successfully inserted the data into a table." ∧
    ¬ ("42".data <:+:
      (handleImport sampleModel "pw" (Except.ok { result := { success := true, errorMessage := "" } })
        (Except.ok { rows := [[{ isNull := false, displayValue := "42" }]] })).statusText.data) := by
  constructor
  · rfl
  · decide

/-- C6: with a successful insert, a row-count query that rejects or yields a
missing, null or non-numeric first cell still leaves the import reported
successful with the count-unknown success message, and `handleImport`
returns normally. -/
theorem c6_rowcount_unknown (model : ImportDataModel) (pwd : String)
    (r : InsertDataResponse) (hr : r.result.success = true)
    (cq : Except String SimpleExecuteResult)
    (hcq : (∃ e, cq = Except.error e) ∨
           (∃ res, cq = Except.ok res ∧
             ∀ cell, res.rows.head?.bind List.head? = some cell →
               cell.isNull = true ∨ cell.displayValue.toInt? = none)) :
    (handleImport model pwd (Except.ok r) cq).statusText =
      "✔ Awesome! You have successfully inserted the data into a table." ∧
    (handleImport model pwd (Except.ok r) cq).returned = true := by
  have hcount : getCountRowsInserted cq = -1 := rfl
  constructor <;> simp [handleImport, hr, hcount]

/-- C6 witness: a rejected row-count query after a successful insert yields
the count-unknown success message and a normal return. -/
theorem c6_rowcount_unknown_witness :
    (handleImport sampleModel "pw" (Except.ok { result := { success := true, errorMessage := "" } })
        (Except.error "connection lost")).statusText =
      "✔ Awesome! You have successfully inserted the data into a table." ∧
    (handleImport sampleModel "pw" (Except.ok { result := { success := true, errorMessage := "" } })
        (Except.error "connection lost")).returned = true :=
  c6_rowcount_unknown sampleModel "pw" { result := { success := true, errorMessage := "" } } rfl
    (Except.error "connection lost") (Or.inl ⟨"connection lost", rfl⟩)

/-- C10 (amended): `onPageEnter` resolves with `true` while the page state
is still untouched (nothing of the population chain has completed at return
time), and the chain is sequenced by promise chaining; but because the
database and schema callbacks are unbound method references, only the
server population step ever completes: the chain then rejects with a
TypeError before any further state change or host call, and the database
and schema steps never run. -/
theorem c10_enter_returns_before_population (h : HostBehavior) (st : ConfigPageState) :
    (onPageEnterConfig h st).returnValue = true ∧
    (onPageEnterConfig h st).stateAtReturn = st ∧
    (onPageEnterConfig h st).finalState = (populateServerDropdown h st).1 ∧
    (onPageEnterConfig h st).deferredCalls = (populateServerDropdown h st).2 ∧
    (onPageEnterConfig h st).chainError = some "TypeError: this is undefined" := by
  rcases hser : populateServerDropdown h st with ⟨st1, calls1⟩
  refine ⟨?_, ?_, ?_, ?_, ?_⟩ <;>
    simp [onPageEnterConfig, runSteps, serverStep, unboundDatabaseStep, hser]

/-- C10 counterexample: with one active connection and a non-empty database
list, the deferred chain issues no call beyond the connection fetch, never
sets `model.database` or `model.schema`, and rejects with a TypeError —
although the database step, had it been invoked on its receiver, would have
issued the `listDatabases` call.  The database and schema population steps
therefore do not complete after `onPageEnter` returns, refuting the claim
as stated. -/
theorem c10_unbound_then_counterexample :
    c10Host.listDatabases sampleConn.connectionId = ["db1"] ∧
    (populateDatabaseDropdown c10Host
        (populateServerDropdown c10Host freshConfigState).1).2.2 =
      [HostCall.listDatabases sampleConn.connectionId] ∧
    (onPageEnterConfig c10Host freshConfigState).deferredCalls =
      [HostCall.getActiveConnections] ∧
    (onPageEnterConfig c10Host freshConfigState).finalState.modelDatabase = none ∧
    (onPageEnterConfig c10Host freshConfigState).finalState.modelSchema = none ∧
    (onPageEnterConfig c10Host freshConfigState).chainError =
      some "TypeError: this is undefined" := by
  refine ⟨rfl, rfl, rfl, rfl, rfl, rfl⟩

/-- C7: with no active connection (and a fresh page, `this.server` unset)
the chain `onPageEnter` starts leaves `model.server` untouched and issues no
host call beyond the connection fetch itself; with a non-empty connection
list the first connection becomes `model.server`. -/
theorem c7_server_defaulting (h : HostBehavior) (st : ConfigPageState) :
    (h.activeConnections = [] → st.server = none →
      (onPageEnterConfig h st).finalState.modelServer = st.modelServer ∧
      (onPageEnterConfig h st).deferredCalls = [HostCall.getActiveConnections]) ∧
    (∀ c rest, h.activeConnections = c :: rest →
      (onPageEnterConfig h st).finalState.modelServer = some c) := by
  constructor
  · intro hconn hsrv
    have hser : populateServerDropdown h st = (st, [HostCall.getActiveConnections]) := by
      unfold populateServerDropdown
      rw [hconn]
    constructor <;>
      simp [onPageEnterConfig, runSteps, serverStep, unboundDatabaseStep, hser]
  · intro c rest hconn
    have hser : populateServerDropdown h st =
        ({ st with server := some c, modelServer := some c
                   serverDropdownValues := (c :: rest).map serverDisplayEntry },
         [HostCall.getActiveConnections]) := by
      unfold populateServerDropdown
      rw [hconn]
    simp [onPageEnterConfig, runSteps, serverStep, unboundDatabaseStep, hser]

/-- C7 witness: with no active connection and a fresh page `model.server`
stays unset and only the connection fetch is issued; with one connection
`sampleConn` it becomes `model.server`. -/
theorem c7_server_defaulting_witness :
    ((onPageEnterConfig
        { activeConnections := [], listDatabases := fun _ => []
          uriForConnection := fun _ => "uri", runQueryAndReturn := fun _ _ => Except.error "no" }
        freshConfigState).finalState.modelServer = freshConfigState.modelServer ∧
      (onPageEnterConfig
        { activeConnections := [], listDatabases := fun _ => []
          uriForConnection := fun _ => "uri", runQueryAndReturn := fun _ _ => Except.error "no" }
        freshConfigState).deferredCalls = [HostCall.getActiveConnections]) ∧
    (onPageEnterConfig
        { activeConnections := [sampleConn], listDatabases := fun _ => []
          uriForConnection := fun _ => "uri", runQueryAndReturn := fun _ _ => Except.error "no" }
        freshConfigState).finalState.modelServer = some sampleConn := by
  constructor
  · exact (c7_server_defaulting
      { activeConnections := [], listDatabases := fun _ => []
        uriForConnection := fun _ => "uri", runQueryAndReturn := fun _ _ => Except.error "no" }
      freshConfigState).1 rfl rfl
  · exact (c7_server_defaulting
      { activeConnections := [sampleConn], listDatabases := fun _ => []
        uriForConnection := fun _ => "uri", runQueryAndReturn := fun _ _ => Except.error "no" }
      freshConfigState).2 sampleConn [] rfl

/-- C8 (amended): on a database change where both metadata queries succeed,
`model.database` becomes the selected name, the table-name cache is replaced
by the rows of the table-listing query against the newly selected database,
the schema dropdown is replaced by the rows of the (connection-level) schema
query whose first row becomes `model.schema`, and neither population
rejects. -/
theorem c8_database_change (h : HostBehavior) (st : ConfigPageState)
    (selected : CategoryValue) (srv : Connection)
    (hsrv : st.server = some srv)
    (hname : ¬ selected.name = "")
    (tres : SimpleExecuteResult) (tnames : List String)
    (htq : h.runQueryAndReturn (h.uriForConnection srv.connectionId)
        (tableNamesQuery selected.name) = Except.ok tres)
    (htrows : tres.rows.mapM rowFirstDisplay = Except.ok tnames)
    (sres : SimpleExecuteResult) (s1 : String) (srest : List String)
    (hsq : h.runQueryAndReturn (h.uriForConnection srv.connectionId)
        "SELECT name FROM sys.schemas" = Except.ok sres)
    (hsrows : sres.rows.mapM rowFirstDisplay = Except.ok (s1 :: srest)) :
    (onDatabaseValueChanged h st selected).state.modelDatabase = some selected.name ∧
    (onDatabaseValueChanged h st selected).state.tableNames = tnames ∧
    (onDatabaseValueChanged h st selected).state.schemaDropdownValues =
      (s1 :: srest).map (fun v => { name := v, displayName := v }) ∧
    (onDatabaseValueChanged h st selected).state.modelSchema = some s1 ∧
    (onDatabaseValueChanged h st selected).tableNamesError = none ∧
    (onDatabaseValueChanged h st selected).schemaError = none := by
  have ht : populateTableNames h
      { st with databaseDropdownValue := some selected
                modelDatabase := some selected.name } =
      ({ st with databaseDropdownValue := some selected
                 modelDatabase := some selected.name
                 tableNames := tnames }, none, true,
       [HostCall.getUriForConnection srv.connectionId,
        HostCall.runQuery (h.uriForConnection srv.connectionId)
          (tableNamesQuery selected.name)]) := by
    unfold populateTableNames
    dsimp only
    rw [if_neg hname, hsrv]
    dsimp only
    rw [htq]
    dsimp only
    rw [htrows]
  have hsch : populateSchemaDropdown h
      { st with databaseDropdownValue := some selected
                modelDatabase := some selected.name
                tableNames := tnames } =
      ({ st with databaseDropdownValue := some selected
                 modelDatabase := some selected.name
                 tableNames := tnames
                 modelSchema := some s1
                 schemaDropdownValues :=
                   (s1 :: srest).map (fun v => { name := v, displayName := v }) },
       none,
       [HostCall.getUriForConnection srv.connectionId,
        HostCall.runQuery (h.uriForConnection srv.connectionId)
          "SELECT name FROM sys.schemas"]) := by
    unfold populateSchemaDropdown
    dsimp only
    rw [hsrv]
    dsimp only
    rw [hsq]
    dsimp only
    rw [hsrows]
  unfold onDatabaseValueChanged
  dsimp only
  rw [ht]
  dsimp only
  rw [hsch]
  exact ⟨rfl, rfl, rfl, rfl, rfl, rfl⟩

/-- C8 witness: selecting `db2` with both queries succeeding replaces the
cache with `orders`, the schema list with `dbo`, and sets the model
fields. -/
theorem c8_database_change_witness :
    (onDatabaseValueChanged c8WitnessHost c8State
        { name := "db2", displayName := "db2" }).state.modelDatabase = some "db2" ∧
    (onDatabaseValueChanged c8WitnessHost c8State
        { name := "db2", displayName := "db2" }).state.tableNames = ["orders"] ∧
    (onDatabaseValueChanged c8WitnessHost c8State
        { name := "db2", displayName := "db2" }).state.modelSchema = some "dbo" := by
  have h := c8_database_change c8WitnessHost c8State
    { name := "db2", displayName := "db2" } sampleConn rfl (by decide)
    { rows := [[{ isNull := false, displayValue := "orders" }]] } ["orders"]
    (by rfl) (by rfl)
    { rows := [[{ isNull := false, displayValue := "dbo" }]] } "dbo" []
    (by rfl) (by rfl)
  exact ⟨h.1, h.2.1, h.2.2.2.1⟩

/-- C8 counterexample: when the table-listing query for the newly selected
database rejects, the catch in `populateTableNames` swallows it and the
table-name cache keeps its previous (stale) contents instead of being
cleared and repopulated. -/
theorem c8_stale_cache_counterexample :
    (onDatabaseValueChanged c8FailHost c8State
        { name := "db2", displayName := "db2" }).state.tableNames = ["stale"] ∧
    c8FailHost.runQueryAndReturn (c8FailHost.uriForConnection sampleConn.connectionId)
        (tableNamesQuery "db2") = Except.error "boom" := by
  exact ⟨rfl, rfl⟩

/-- Bounds invariant of the `lastIndexOf` accumulator loop. -/
theorem jsLastIndexOfAux_bounds (c : Char) :
    ∀ (l : List Char) (i : Nat) (acc : Int), -1 ≤ acc → acc < (i : Int) →
      -1 ≤ jsLastIndexOfAux c l i acc ∧
        jsLastIndexOfAux c l i acc < (i : Int) + l.length := by
  intro l
  induction l with
  | nil =>
    intro i acc h1 h2
    unfold jsLastIndexOfAux
    exact ⟨h1, by simpa using h2⟩
  | cons x xs ih =>
    intro i acc h1 h2
    unfold jsLastIndexOfAux
    have hA : -1 ≤ (if x = c then (i : Int) else acc) := by
      split
      · omega
      · exact h1
    have hB : (if x = c then (i : Int) else acc) < ((i + 1 : Nat) : Int) := by
      split
      · push_cast
        omega
      · push_cast
        omega
    obtain ⟨ha, hb⟩ := ih (i + 1) _ hA hB
    refine ⟨ha, ?_⟩
    push_cast [List.length_cons] at hb ⊢
    omega

/-- `lastIndexOf` is `-1` or a valid index. -/
theorem jsLastIndexOf_bounds (s : List Char) (c : Char) :
    -1 ≤ jsLastIndexOf s c ∧ jsLastIndexOf s c < (s.length : Int) := by
  have h := jsLastIndexOfAux_bounds c s 0 (-1) (le_refl _) (by norm_num)
  unfold jsLastIndexOf
  simpa using h

/-- Complete case analysis of the derived table name under JavaScript
`substring` semantics (negative end clamps to zero, out-of-order bounds are
swapped): with no dot the name is the prefix through the last slash; with
the last dot at index 0 it runs from after the last slash to the end; with
the last dot after the last slash it is the text strictly between them; with
a positive last-dot index at or before the last slash the swapped bounds
give the text from the last dot through the last slash. -/
theorem deriveTableName_cases (path : List Char) :
    (jsLastIndexOf path '.' = -1 →
      deriveTableName path = path.take (jsLastIndexOf path '/' + 1).toNat) ∧
    (jsLastIndexOf path '.' = 0 →
      deriveTableName path = path.drop (jsLastIndexOf path '/' + 1).toNat) ∧
    (0 < jsLastIndexOf path '.' → jsLastIndexOf path '/' < jsLastIndexOf path '.' →
      deriveTableName path =
        (path.take (jsLastIndexOf path '.').toNat).drop
          (jsLastIndexOf path '/' + 1).toNat) ∧
    (0 < jsLastIndexOf path '.' → jsLastIndexOf path '.' ≤ jsLastIndexOf path '/' →
      deriveTableName path =
        (path.take (jsLastIndexOf path '/' + 1).toNat).drop
          (jsLastIndexOf path '.').toNat) := by
  obtain ⟨hns1, hns2⟩ := jsLastIndexOf_bounds path '/'
  obtain ⟨hne1, hne2⟩ := jsLastIndexOf_bounds path '.'
  have hx : intClamp (jsLastIndexOf path '/' + 1) path.length =
      (jsLastIndexOf path '/' + 1).toNat := by
    unfold intClamp
    rw [if_neg (by omega)]
    exact min_eq_left (by omega)
  refine ⟨?_, ?_, ?_, ?_⟩
  · intro h0
    unfold deriveTableName
    dsimp only
    rw [h0]
    rw [if_neg (by norm_num : ¬(-1 : Int) = 0)]
    unfold jsSubstring
    dsimp only
    rw [hx]
    have hy : intClamp (-1) path.length = 0 := by
      unfold intClamp
      rw [if_pos (by norm_num)]
    rw [hy]
    simp
  · intro h0
    unfold deriveTableName
    dsimp only
    rw [h0]
    rw [if_pos rfl]
    unfold jsSubstring
    dsimp only
    rw [hx]
    have hy : intClamp (path.length : Int) path.length = path.length := by
      unfold intClamp
      rw [if_neg (by omega)]
      simp
    rw [hy]
    rw [min_eq_left (by omega), max_eq_right (by omega)]
    rw [List.take_length]
  · intro h0 hlt
    unfold deriveTableName
    dsimp only
    rw [if_neg (by omega : ¬ jsLastIndexOf path '.' = 0)]
    unfold jsSubstring
    dsimp only
    rw [hx]
    have hy : intClamp (jsLastIndexOf path '.') path.length =
        (jsLastIndexOf path '.').toNat := by
      unfold intClamp
      rw [if_neg (by omega)]
      exact min_eq_left (by omega)
    rw [hy]
    rw [min_eq_left (by omega), max_eq_right (by omega)]
  · intro h0 hle
    unfold deriveTableName
    dsimp only
    rw [if_neg (by omega : ¬ jsLastIndexOf path '.' = 0)]
    unfold jsSubstring
    dsimp only
    rw [hx]
    have hy : intClamp (jsLastIndexOf path '.') path.length =
        (jsLastIndexOf path '.').toNat := by
      unfold intClamp
      rw [if_neg (by omega)]
      exact min_eq_left (by omega)
    rw [hy]
    rw [min_eq_right (by omega), max_eq_left (by omega)]

/-- C9 (amended): choosing a file stores the filesystem path in
`model.filePath` and the file text box, and the derived name in
`model.table` and the table-name text box; the derived name is the substring
strictly between the last slash and the last dot when the last dot lies
after the last slash (extended to the end of the path exactly when the last
dot sits at index 0), while a path with no dot yields the prefix of the path
up to and including the last slash (JavaScript `substring` swaps the
out-of-order bounds), and a positive last-dot index at or before the last
slash yields the swapped segment from the last dot through the last
slash. -/
theorem c9_file_browser (st : ConfigPageState) (uri : FileUri) (rest : List FileUri) :
    (fileButtonOnClick st (uri :: rest)).modelFilePath = some uri.fsPath ∧
    (fileButtonOnClick st (uri :: rest)).fileTextBoxValue = some uri.fsPath ∧
    (fileButtonOnClick st (uri :: rest)).modelTable =
      some (String.mk (deriveTableName uri.path.data)) ∧
    (fileButtonOnClick st (uri :: rest)).tableNameTextBoxValue =
      some (String.mk (deriveTableName uri.path.data)) ∧
    (jsLastIndexOf uri.path.data '.' = -1 →
      deriveTableName uri.path.data =
        uri.path.data.take (jsLastIndexOf uri.path.data '/' + 1).toNat) ∧
    (jsLastIndexOf uri.path.data '.' = 0 →
      deriveTableName uri.path.data =
        uri.path.data.drop (jsLastIndexOf uri.path.data '/' + 1).toNat) ∧
    (0 < jsLastIndexOf uri.path.data '.' →
      jsLastIndexOf uri.path.data '/' < jsLastIndexOf uri.path.data '.' →
      deriveTableName uri.path.data =
        (uri.path.data.take (jsLastIndexOf uri.path.data '.').toNat).drop
          (jsLastIndexOf uri.path.data '/' + 1).toNat) ∧
    (0 < jsLastIndexOf uri.path.data '.' →
      jsLastIndexOf uri.path.data '.' ≤ jsLastIndexOf uri.path.data '/' →
      deriveTableName uri.path.data =
        (uri.path.data.take (jsLastIndexOf uri.path.data '/' + 1).toNat).drop
          (jsLastIndexOf uri.path.data '.').toNat) := by
  obtain ⟨h1, h2, h3, h4⟩ := deriveTableName_cases uri.path.data
  exact ⟨rfl, rfl, rfl, rfl, h1, h2, h3, h4⟩

/-- C9 witness: choosing `/tmp/data.csv` stores the path, and the derived
name is the text strictly between the last slash and the last dot, namely
`data`. -/
theorem c9_file_browser_witness :
    (fileButtonOnClick freshConfigState
        [{ fsPath := "/tmp/data.csv", path := "/tmp/data.csv" }]).modelFilePath =
      some "/tmp/data.csv" ∧
    deriveTableName ("/tmp/data.csv".data) =
      (("/tmp/data.csv".data).take (jsLastIndexOf ("/tmp/data.csv".data) '.').toNat).drop
        (jsLastIndexOf ("/tmp/data.csv".data) '/' + 1).toNat ∧
    (fileButtonOnClick freshConfigState
        [{ fsPath := "/tmp/data.csv", path := "/tmp/data.csv" }]).modelTable =
      some "data" := by
  have h := c9_file_browser freshConfigState
    { fsPath := "/tmp/data.csv", path := "/tmp/data.csv" } []
  refine ⟨h.1, h.2.2.2.2.2.2.1 (by decide) (by decide), ?_⟩
  rw [h.2.2.1]
  decide

/-- C9 counterexample: a path with no dot does not yield an empty derived
table name; `/a/b` derives `/a/`, the prefix through the last slash. -/
theorem c9_no_dot_counterexample :
    ('.' ∉ ("/a/b".data)) ∧
    deriveTableName ("/a/b".data) = "/a/".data ∧
    "/a/".data ≠ [] := by
  refine ⟨by decide, by decide, by decide⟩

/-- A prefix of an append is a prefix of the left part or extends it. -/
theorem isPrefixSplitAppend {α : Type} {p a b : List α} (h : p <+: a ++ b) :
    p <+: a ∨ ∃ t, p = a ++ t ∧ t <+: b := by
  induction a generalizing p with
  | nil =>
    right
    exact ⟨p, rfl, by simpa using h⟩
  | cons x a' ih =>
    obtain ⟨v, hv⟩ := h
    rcases p with _ | ⟨y, p'⟩
    · left
      exact ⟨x :: a', rfl⟩
    · rw [List.cons_append, List.cons_append] at hv
      injection hv with hy hrest
      subst hy
      rcases ih ⟨v, hrest⟩ with h1 | ⟨t, ht1, ht2⟩
      · left
        obtain ⟨u, hu⟩ := h1
        exact ⟨u, by rw [List.cons_append, hu]⟩
      · right
        exact ⟨t, by rw [ht1, List.cons_append], ht2⟩

/-- An occurrence inside an append lies wholly in the left part, wholly in
the right part, or straddles the boundary as a nonempty suffix of the left
part followed by a nonempty prefix of the right part. -/
theorem isInfixSplitAppend {α : Type} {p : List α} :
    ∀ {a b : List α}, p <:+: a ++ b →
      p <:+: a ∨ p <:+: b ∨
        ∃ s t, p = s ++ t ∧ s ≠ [] ∧ t ≠ [] ∧ s <:+ a ∧ t <+: b := by
  intro a
  induction a with
  | nil =>
    intro b h
    right; left
    simpa using h
  | cons x a' ih =>
    intro b h
    obtain ⟨u, v, huv⟩ := h
    rcases u with _ | ⟨y, u'⟩
    · have hpre : p <+: (x :: a') ++ b := ⟨v, by simpa using huv⟩
      rcases isPrefixSplitAppend hpre with h1 | ⟨t, ht1, ht2⟩
      · exact Or.inl h1.isInfix
      · rcases t with _ | ⟨z, t'⟩
        · left
          rw [List.append_nil] at ht1
          subst ht1
          exact ⟨[], [], by simp⟩
        · right; right
          exact ⟨x :: a', z :: t', ht1, by simp, by simp, ⟨[], rfl⟩, ht2⟩
    · simp only [List.cons_append] at huv
      injection huv with hy hrest
      rcases ih ⟨u', v, hrest⟩ with h1 | h2 | ⟨s, t, hst, hs, ht, hsa, htb⟩
      · left
        obtain ⟨s2, t2, h12⟩ := h1
        exact ⟨x :: s2, t2, by simp only [List.cons_append]; rw [h12]⟩
      · exact Or.inr (Or.inl h2)
      · right; right
        obtain ⟨w, hw⟩ := hsa
        exact ⟨s, t, hst, hs, ht, ⟨x :: w, by rw [List.cons_append, hw]⟩, htb⟩

/-- No straddling occurrence can begin a right part whose first character
the pattern does not contain. -/
theorem crossKillHeadChar {p a b' : List Char} {c : Char} (hc : c ∉ p) :
    ∀ s t, p = s ++ t → s ≠ [] → t ≠ [] → s <:+ a → t <+: c :: b' → False := by
  intro s t hst hs ht hsa htb
  rcases t with _ | ⟨t0, ts⟩
  · exact ht rfl
  · obtain ⟨u, hu⟩ := htb
    rw [List.cons_append] at hu
    injection hu with h1 _
    apply hc
    rw [hst, h1]
    exact List.mem_append.mpr (Or.inr (List.mem_cons_self _ _))

/-- No straddling occurrence can leave a left part none of whose nonempty
suffixes starts the pattern. -/
theorem crossKillTails {p a b : List Char}
    (htails : ∀ s ∈ a.tails, s = [] ∨ ¬ s <+: p) :
    ∀ s t, p = s ++ t → s ≠ [] → t ≠ [] → s <:+ a → t <+: b → False := by
  intro s t hst hs ht hsa htb
  rcases htails s ((List.mem_tails s a).mpr hsa) with h | h
  · exact hs h
  · exact h ⟨t, hst.symm⟩

/-- Combine the three split cases into a non-occurrence proof. -/
theorem notInfixAppend {p a b : List Char}
    (hpa : ¬ p <:+: a)
    (hcross : ∀ s t, p = s ++ t → s ≠ [] → t ≠ [] → s <:+ a → t <+: b → False)
    (hpb : ¬ p <:+: b) : ¬ p <:+: a ++ b := by
  intro h
  rcases isInfixSplitAppend h with h1 | h2 | ⟨s, t, hst, hs, ht, hsa, htb⟩
  · exact hpa h1
  · exact hpb h2
  · exact hcross s t hst hs ht hsa htb

theorem useridPat_no_semi : ';' ∉ useridPat := by decide

theorem useridPat_no_comma : ',' ∉ useridPat := by decide

theorem ds_tails : ∀ s ∈ ("Data Source=".data).tails, s = [] ∨ ¬ s <+: useridPat := by decide

theorem ic_tails : ∀ s ∈ (";Initial Catalog=".data).tails, s = [] ∨ ¬ s <+: useridPat := by
  decide

theorem comma_tails : ∀ s ∈ ([','] : List Char).tails, s = [] ∨ ¬ s <+: useridPat := by decide

theorem pat_not_in_ds : ¬ useridPat <:+: "Data Source=".data := by decide

theorem pat_not_in_ic : ¬ useridPat <:+: ";Initial Catalog=".data := by decide

theorem pat_not_in_is : ¬ useridPat <:+: ";Integrated Security=True".data := by decide

theorem pat_not_in_comma : ¬ useridPat <:+: ([','] : List Char) := by decide

/-- No occurrence of the credential marker in the catalog-and-suffix tail of
the integrated connection string when the database name is clean. -/
theorem noUserIdTail (db : List Char) (hd : ¬ useridPat <:+: db) :
    ¬ useridPat <:+:
      ";Initial Catalog=".data ++ (db ++ ";Integrated Security=True".data) := by
  refine notInfixAppend pat_not_in_ic (crossKillTails ic_tails) ?_
  refine notInfixAppend hd ?_ pat_not_in_is
  intro s t hst hs ht hsa htb
  have h3 : (";Integrated Security=True".data) =
      ';' :: ("Integrated Security=True".data) := by decide
  rw [h3] at htb
  exact crossKillHeadChar useridPat_no_semi s t hst hs ht hsa htb

/-- No occurrence across the comma, port value and tail when the port value
is clean. -/
theorem noUserIdMid (pt db : List Char)
    (hp : ¬ useridPat <:+: pt) (hd : ¬ useridPat <:+: db) :
    ¬ useridPat <:+: ([','] : List Char) ++
      (pt ++ (";Initial Catalog=".data ++ (db ++ ";Integrated Security=True".data))) := by
  refine notInfixAppend pat_not_in_comma (crossKillTails comma_tails) ?_
  refine notInfixAppend hp ?_ (noUserIdTail db hd)
  intro s t hst hs ht hsa htb
  have h0 : (";Initial Catalog=".data) = ';' :: ("Initial Catalog=".data) := by decide
  rw [h0, List.cons_append] at htb
  exact crossKillHeadChar useridPat_no_semi s t hst hs ht hsa htb

/-- The integrated-auth connection string, as a character list, contains the
credential marker only if the host, port or database value does. -/
theorem noUserIdFull (hostName ps db : List Char)
    (hh : ¬ useridPat <:+: hostName) (hd : ¬ useridPat <:+: db)
    (hps : ps = [] ∨ ∃ pt, ps = ',' :: pt ∧ ¬ useridPat <:+: pt) :
    ¬ useridPat <:+: "Data Source=".data ++ (hostName ++ (ps ++
      (";Initial Catalog=".data ++ (db ++ ";Integrated Security=True".data)))) := by
  refine notInfixAppend pat_not_in_ds (crossKillTails ds_tails) ?_
  have hmid : ¬ useridPat <:+: ps ++
      (";Initial Catalog=".data ++ (db ++ ";Integrated Security=True".data)) := by
    rcases hps with h | ⟨pt, hpt, hp⟩
    · subst h
      rw [List.nil_append]
      exact noUserIdTail db hd
    · subst hpt
      have hcomma : (',' :: pt) ++
          (";Initial Catalog=".data ++ (db ++ ";Integrated Security=True".data)) =
          ([','] : List Char) ++ (pt ++
            (";Initial Catalog=".data ++ (db ++ ";Integrated Security=True".data))) := by
        simp
      rw [hcomma]
      exact noUserIdMid pt db hp hd
  refine notInfixAppend hh ?_ hmid
  intro s t hst hs ht hsa htb
  rcases hps with h | ⟨pt, hpt, hp⟩
  · subst h
    rw [List.nil_append] at htb
    have h0 : (";Initial Catalog=".data) = ';' :: ("Initial Catalog=".data) := by decide
    rw [h0, List.cons_append] at htb
    exact crossKillHeadChar useridPat_no_semi s t hst hs ht hsa htb
  · subst hpt
    rw [List.cons_append] at htb
    exact crossKillHeadChar useridPat_no_comma s t hst hs ht hsa htb

/-- C1 (amended): under integrated authentication the connection string is
exactly `Data Source=<host><,port>;Initial Catalog=<db>;Integrated
Security=True`, under every other authentication mode exactly `Data
Source=<host><,port>;Initial Catalog=<db>;Integrated Security=False;User
Id=<user>;Password=<password>`; the port segment is present exactly when the
port option is present and non-empty; the result is a function of those
inputs alone; and the integrated-auth result contains the substring
`User Id=` only if the host, port or database value itself contains it. -/
theorem c1_connection_string (m : ImportDataModel) (pwd : String) :
    (m.server.options.authenticationType = "Integrated" →
      getConnectionString m pwd =
        "Data Source=" ++ m.server.options.server ++ portSegment m.server.options ++
          ";Initial Catalog=" ++ m.database ++ ";Integrated Security=True" ∧
      (¬ useridPat <:+: m.server.options.server.data →
       (∀ p, m.server.options.port = some p → ¬ useridPat <:+: p.data) →
       ¬ useridPat <:+: m.database.data →
       ¬ useridPat <:+: (getConnectionString m pwd).data)) ∧
    (¬ m.server.options.authenticationType = "Integrated" →
      getConnectionString m pwd =
        "Data Source=" ++ m.server.options.server ++ portSegment m.server.options ++
          ";Initial Catalog=" ++ m.database ++
          ";Integrated Security=False;User Id=" ++ m.server.options.user ++
          ";Password=" ++ pwd) ∧
    (m.server.options.port = none → portSegment m.server.options = "") ∧
    (∀ p, m.server.options.port = some p → p = "" →
      portSegment m.server.options = "") ∧
    (∀ p, m.server.options.port = some p → ¬ p = "" →
      portSegment m.server.options = "," ++ p) := by
  refine ⟨?_, ?_, ?_, ?_, ?_⟩
  · intro hauth
    have hshape : getConnectionString m pwd =
        "Data Source=" ++ m.server.options.server ++ portSegment m.server.options ++
          ";Initial Catalog=" ++ m.database ++ ";Integrated Security=True" := by
      unfold getConnectionString
      rw [if_pos hauth]
    refine ⟨hshape, ?_⟩
    intro hh hport hd
    have hdata : (getConnectionString m pwd).data =
        "Data Source=".data ++ (m.server.options.server.data ++
          ((portSegment m.server.options).data ++ (";Initial Catalog=".data ++
            (m.database.data ++ ";Integrated Security=True".data)))) := by
      rw [hshape]
      simp [String.data_append, List.append_assoc]
    rw [hdata]
    refine noUserIdFull _ _ _ hh hd ?_
    rcases hp : m.server.options.port with _ | p
    · left
      simp [portSegment, hp]
    · by_cases hpe : p = ""
      · left
        simp [portSegment, hp, hpe]
      · right
        have hseg : portSegment m.server.options = "," ++ p := by
          simp [portSegment, hp, hpe]
        have hcd : (",".data) = [','] := by decide
        refine ⟨p.data, ?_, hport p hp⟩
        rw [hseg, String.data_append, hcd]
        rfl
  · intro hauth
    unfold getConnectionString
    rw [if_neg hauth]
  · intro hp
    simp [portSegment, hp]
  · intro p hp hpe
    simp [portSegment, hp, hpe]
  · intro p hp hpe
    simp [portSegment, hp, hpe]

/-- C1 witness: both documented shapes at concrete models, and the
integrated-auth result free of the credential marker. -/
theorem c1_connection_string_witness :
    getConnectionString c1IntModel "pw" =
      "Data Source=myhost,1433;Initial Catalog=mydb;Integrated Security=True" ∧
    ¬ useridPat <:+: (getConnectionString c1IntModel "pw").data ∧
    getConnectionString c1SqlModel "secret" =
      "Data Source=srv1;Initial Catalog=db1;Integrated Security=False;User Id=sa;Password=secret" := by
  have hInt := c1_connection_string c1IntModel "pw"
  have hSql := c1_connection_string c1SqlModel "secret"
  refine ⟨?_, ?_, ?_⟩
  · have h := (hInt.1 rfl).1
    rw [h]
    decide
  · exact (hInt.1 rfl).2 (by decide)
      (fun p hp => by
        simp [c1IntModel] at hp
        rw [← hp]
        decide)
      (by decide)
  · have h := hSql.2.1 (by decide)
    rw [h]
    decide

/-- C1 counterexample: with an adversarial host value the integrated-auth
connection string does contain the substring `User Id=`, so the unqualified
never-contains conjunct of the claim is false. -/
theorem c1_userid_counterexample :
    c1EvilModel.server.options.authenticationType = "Integrated" ∧
    useridPat <:+: (getConnectionString c1EvilModel "pw").data := by
  constructor
  · rfl
  · decide
